import Mathlib

/-!
Shallow embedding of the fernspielapparat sound actuator
(`src/fernspielapparat/src/acts/sound/sound.rs`) and of the dial-request
decoding (`src/src/serve/req.rs`), together with theorems settling the
spec claims about them.

Durations are modelled as natural numbers of nanoseconds (Rust
`std::time::Duration` is an exact nanosecond count).  The VLC driver's
playback clock (`get_time` / `set_time`) works in whole milliseconds and
is modelled by an optional signed millisecond count.  Wall-clock instants
(`std::time::Instant`) are modelled by a natural number of nanoseconds
passed in as a `now` parameter; `Instant::elapsed` becomes truncated
subtraction `now - at`.  Rust panics are modelled as `Option.none`
results; fallible operations return `Except`.
-/

namespace Fern

/-- Nanoseconds in one millisecond: converts `Duration::as_millis` /
`Duration::from_millis` between the two granularities. -/
def NS_PER_MS : Nat := 1000000

/-- `const PAUSE_DIRTY_TIMEOUT: Duration = Duration::from_millis(50)` in ns. -/
def PAUSE_DIRTY_TIMEOUT : Nat := 50 * NS_PER_MS

/-- The playback states reported by the VLC driver (`vlc::State`). -/
inductive VlcState where
  | NothingSpecial
  | Opening
  | Buffering
  | Playing
  | Paused
  | Stopped
  | Ended
  | Error
deriving DecidableEq, Repr

/-- The classification of driver states inside `Player::playing`:
opening, buffering and playing count as playing, the rest do not. -/
def vlcPlaying : VlcState → Bool
  | .Opening => true
  | .Buffering => true
  | .Playing => true
  | .NothingSpecial => false
  | .Paused => false
  | .Stopped => false
  | .Ended => false
  | .Error => false

/-- The `Player` of module `play` in `sound.rs`.  The opaque native VLC
handles are replaced by the observable driver registers the code reads:
the cached total `duration` (ns), the driver clock `timeMs`
(`MediaPlayer::get_time`, `None` when the driver has no time), the driver
`state`, whether the driver reports `can_pause`, whether a driver-level
`play` call fails, and `last_pause_request` as in the source. -/
structure Player where
  duration : Nat
  timeMs : Option Int
  state : VlcState
  canPause : Bool
  playFails : Bool
  lastPauseRequest : Option (Nat × Bool)
deriving DecidableEq, Repr

/-- `Player::playing`: trust the requested paused state while the last
play/pause request is younger than `PAUSE_DIRTY_TIMEOUT`, otherwise read
the driver state. -/
def Player.playing (p : Player) (now : Nat) : Bool :=
  match p.lastPauseRequest with
  | some (at_, paused) =>
      if now - at_ < PAUSE_DIRTY_TIMEOUT then !paused else vlcPlaying p.state
  | none => vlcPlaying p.state

/-- `Player::played`:
`Duration::from_millis(self.player.get_time().unwrap_or(0).try_into().unwrap_or(0))`.
A missing time reads as 0, a negative time fails the `i64 → u64`
conversion and also reads as 0 (`Int.toNat`). -/
def Player.played (p : Player) : Nat :=
  (p.timeMs.getD 0).toNat * NS_PER_MS

/-- `Player::seek`: clamp to the media duration
(`cmp::min(self.duration(), from_start)`), then
`set_time(from_start.as_millis() ...)` — the driver clock is set in whole
milliseconds. -/
def Player.seek (p : Player) (from_start : Nat) : Player :=
  let from_start := min p.duration from_start
  { p with timeMs := some ((from_start / NS_PER_MS : Nat) : Int) }

/-- `Player::play`: no-op when already playing per the compensated check;
otherwise ask the driver to play (which may fail) and record
`last_pause_request = (now, false)`. -/
def Player.play (p : Player) (now : Nat) : Except Unit Player :=
  if p.playing now then .ok p
  else if p.playFails then .error ()
  else .ok { p with lastPauseRequest := some (now, false) }

/-- `Player::pause`: no-op when already not playing per the compensated
check; fails when the driver reports the media cannot be paused;
otherwise `set_pause(true)` and record `last_pause_request = (now, true)`. -/
def Player.pause (p : Player) (now : Nat) : Except Unit Player :=
  if !(p.playing now) then .ok p
  else if !p.canPause then .error ()
  else .ok { p with lastPauseRequest := some (now, true) }

/-- Re-entry policies of a sound.  Modelled from the spec:
`ReenterBehavior` is defined outside `src/` (only consumed by `sound.rs`);
per the spec it is either `Backoff(Duration)` or `Seek(Duration)`. -/
inductive ReenterBehavior where
  | Backoff (d : Nat)
  | Seek (d : Nat)
deriving DecidableEq, Repr

/-- Sound configuration.  Modelled from the spec: `SoundSpec` is defined
outside `src/`; `sound.rs` reads its loop flag (`is_loop`), its start
offset (`start_offset`) and its re-entry policy (`reenter_behavior`),
which the spec lists as the per-instance configuration. -/
structure SoundSpec where
  looping : Bool
  start_offset : Nat
  reenter_behavior : ReenterBehavior
deriving DecidableEq, Repr

/-- The `Sound` act: a player, its spec and the `activated` flag (true
iff the last lifecycle interaction was `activate`, not `cancel`). -/
structure Sound where
  player : Player
  spec : SoundSpec
  activated : Bool
deriving DecidableEq, Repr

/-- The nested `fn duration_mod` of `Sound::seek_on_reenter`:
`(duration.as_nanos() as u64) % (max_duration.as_nanos() as u64)`.
The `as u64` casts truncate modulo `2 ^ 64`; the Rust `%` operator
panics when the divisor is zero, modelled as `none`. -/
def duration_mod (duration max_duration : Nat) : Option Nat :=
  let d := duration % 2 ^ 64
  let m := max_duration % 2 ^ 64
  if m = 0 then none else some (d % m)

/-- `Sound::rewind_unless_already_active`: seek to the start offset
when the `activated` flag is not set. -/
def Sound.rewind_unless_already_active (s : Sound) : Sound :=
  if !s.activated then
    { s with player := s.player.seek s.spec.start_offset }
  else s

/-- `Sound::seek_on_reenter`.  A warm re-entry keeps going; a cold
re-entry seeks: looping backoff subtracts the backoff (reduced
`mod` the duration) from the played position, wrapping at zero;
non-looping backoff clamps at the start offset
(`played().checked_sub(backoff).unwrap_or(start_offset)` under the outer
`max`); an explicit `Seek` wins unconditionally.  `none` models the
panic of `duration_mod` on a zero duration. -/
def Sound.seek_on_reenter (s : Sound) (was_active : Bool) : Option Sound :=
  if was_active then
    some s
  else
    (match s.spec.looping, s.spec.reenter_behavior with
      | true, ReenterBehavior.Backoff backoff =>
          let duration := s.player.duration
          (duration_mod backoff duration).map fun backoff =>
            let played := s.player.played
            if backoff > played then
              duration - (backoff - played)
            else
              played - backoff
      | false, ReenterBehavior.Backoff backoff =>
          let start_offset := s.spec.start_offset
          some (max start_offset
            (if backoff ≤ s.player.played then s.player.played - backoff
             else start_offset))
      | _, ReenterBehavior.Seek t => some t
    ).map fun t => { s with player := s.player.seek t }

/-- `<Sound as Act>::activate`.  Mirrors the source order: read
`was_active`, set `activated` to true, call
`rewind_unless_already_active`, then `play` (propagating its error with
the state mutated so far, as `&mut self` does), then `seek_on_reenter`.
`none` models a panic inside `seek_on_reenter`. -/
def Sound.activate (s : Sound) (now : Nat) : Option (Except Unit Unit × Sound) :=
  let was_active := s.activated
  let s := { s with activated := true }
  let s := s.rewind_unless_already_active
  match s.player.play now with
  | .error e => some (.error e, s)
  | .ok p =>
      let s := { s with player := p }
      (s.seek_on_reenter was_active).map fun s => (.ok (), s)

/-- `<Sound as Act>::done`: true iff the player reports not playing. -/
def Sound.done (s : Sound) (now : Nat) : Bool :=
  !(s.player.playing now)

/-- `<Sound as Act>::cancel`: clear the `activated` flag, then pause the
player; a pause error is returned with the flag already cleared. -/
def Sound.cancel (s : Sound) (now : Nat) : Except Unit Unit × Sound :=
  let s := { s with activated := false }
  match s.player.pause now with
  | .ok p => (.ok (), { s with player := p })
  | .error e => (.error e, s)

/-- Phone input events.  Modelled from the spec: `Input` (crate module
`senses`) is outside `src/`; per the spec it is
`Digit(0..=9) | PickUp | HangUp` and digit construction fails outside
0–9. -/
inductive Input where
  | digit (n : Nat)
  | pickUp
  | hangUp
deriving DecidableEq, Repr

/-- Modelled from the spec: the `Input::digit` validating constructor,
which fails with an out-of-range error for values outside 0–9. -/
def Input.digitChecked (n : Int) : Option Input :=
  if 0 ≤ n ∧ n ≤ 9 then some (.digit n.toNat) else none

/-- The per-character closure of the `Spec::Dial` arm of
`Spec::compile`: `'0'..='9'` maps through `Input::digit(c - '0')`
(whose `unwrap` never fails, the pattern keeps the argument in range),
`'h'` to hang up, `'p'` to pick up, anything else to `None`. -/
def dialChar (c : Char) : Option Input :=
  if '0' ≤ c ∧ c ≤ '9' then
    Input.digitChecked ((c.toNat : Int) - ('0'.toNat : Int))
  else if c = 'h' then some .hangUp
  else if c = 'p' then some .pickUp
  else none

/-- The `Spec::Dial` arm of `Spec::compile`:
`seq.chars().filter_map(...).collect()`. -/
def compileDial (seq : List Char) : List Input :=
  seq.filterMap dialChar

/-- The mapping stated by the spec for dial strings: digits `'0'..'9'`
become the corresponding `Digit`, `'h'` becomes `HangUp`, `'p'` becomes
`PickUp`, every other character is dropped.  This follows the spec's
words, to be compared with `compileDial` from the source. -/
def specDialChar (c : Char) : Option Input :=
  if '0' ≤ c ∧ c ≤ '9' then some (.digit (c.toNat - '0'.toNat))
  else if c = 'h' then some .hangUp
  else if c = 'p' then some .pickUp
  else none

/-! ## Concrete fixtures used by witnesses and counterexamples -/

/-- A player whose driver still reports `Playing` although a pause was
requested 10 ns ago. -/
def c5Player : Player :=
  { duration := 10, timeMs := some 0, state := .Playing,
    canPause := true, playFails := false,
    lastPauseRequest := some (0, true) }

/-- A currently playing, pausable sound. -/
def c6Sound : Sound :=
  { player := { duration := 10, timeMs := some 0, state := .Playing,
                canPause := true, playFails := false,
                lastPauseRequest := none },
    spec := { looping := false, start_offset := 0,
              reenter_behavior := .Backoff 0 },
    activated := true }

/-- An already-activated sound, paused at 3 s of a 10 s medium. -/
def c8Sound : Sound :=
  { player := { duration := 10 * 10 ^ 9, timeMs := some 3000,
                state := .Paused, canPause := true, playFails := false,
                lastPauseRequest := some (0, false) },
    spec := { looping := false, start_offset := 0,
              reenter_behavior := .Backoff 0 },
    activated := true }

/-- A cold sound whose driver refuses to play. -/
def c7Sound : Sound :=
  { player := { duration := 10 * 10 ^ 9, timeMs := some 0, state := .Paused,
                canPause := true, playFails := true,
                lastPauseRequest := none },
    spec := { looping := false, start_offset := 0,
              reenter_behavior := .Backoff (3 * 10 ^ 9) },
    activated := false }

/-- A cold, non-looping sound with `Backoff(0)`, a configured start
offset of 7 s, and a current playback position of 10 s. -/
def c1Sound : Sound :=
  { player := { duration := 100 * 10 ^ 9, timeMs := some 10000,
                state := .Paused, canPause := true, playFails := false,
                lastPauseRequest := none },
    spec := { looping := false, start_offset := 7 * 10 ^ 9,
              reenter_behavior := .Backoff 0 },
    activated := false }

/-- The sound `c1Sound` becomes after a cold `activate` at instant 0:
still at 10 s, never rewound to the 7 s start offset. -/
def c1After : Sound :=
  { player := { duration := 100 * 10 ^ 9, timeMs := some 10000,
                state := .Paused, canPause := true, playFails := false,
                lastPauseRequest := some (0, false) },
    spec := c1Sound.spec,
    activated := true }

/-- A cold looping sound with a `Backoff` policy whose player reports a
zero total duration. -/
def c10Sound : Sound :=
  { player := { duration := 0, timeMs := some 0, state := .Paused,
                canPause := true, playFails := false,
                lastPauseRequest := none },
    spec := { looping := true, start_offset := 0,
              reenter_behavior := .Backoff (5 * 10 ^ 9) },
    activated := false }

/-- The spec's looping-backoff example: a cold looping sound, 100 s
long, played up to 5 s, with `Backoff(12 s)`. -/
def c2Sound : Sound :=
  { player := { duration := 100 * 10 ^ 9, timeMs := some 5000,
                state := .Paused, canPause := true, playFails := false,
                lastPauseRequest := none },
    spec := { looping := true, start_offset := 0,
              reenter_behavior := .Backoff (12 * 10 ^ 9) },
    activated := false }

/-- `c2Sound`'s player right after the inner play call. -/
def c2PlayerAfter : Player :=
  { duration := 100 * 10 ^ 9, timeMs := some 5000, state := .Paused,
    canPause := true, playFails := false,
    lastPauseRequest := some (0, false) }

/-- The spec's non-looping-backoff example: a cold non-looping sound
played up to 10 s with `Backoff(3 s)` and start offset 0. -/
def c3Sound : Sound :=
  { player := { duration := 100 * 10 ^ 9, timeMs := some 10000,
                state := .Paused, canPause := true, playFails := false,
                lastPauseRequest := none },
    spec := { looping := false, start_offset := 0,
              reenter_behavior := .Backoff (3 * 10 ^ 9) },
    activated := false }

/-- `c3Sound`'s player right after the inner play call. -/
def c3PlayerAfter : Player :=
  { duration := 100 * 10 ^ 9, timeMs := some 10000, state := .Paused,
    canPause := true, playFails := false,
    lastPauseRequest := some (0, false) }

/-- A cold sound with `Seek(2 s)` on a medium that is only 1 s long. -/
def c4Sound : Sound :=
  { player := { duration := 1 * 10 ^ 9, timeMs := some 0, state := .Paused,
                canPause := true, playFails := false,
                lastPauseRequest := none },
    spec := { looping := false, start_offset := 0,
              reenter_behavior := .Seek (2 * 10 ^ 9) },
    activated := false }

/-- `c4Sound`'s player right after the inner play call. -/
def c4PlayerAfter : Player :=
  { duration := 1 * 10 ^ 9, timeMs := some 0, state := .Paused,
    canPause := true, playFails := false,
    lastPauseRequest := some (0, false) }

/-- The sound `c4Sound` becomes after a cold `activate` at instant 0:
the `Seek(2 s)` target is clamped to the 1 s duration. -/
def c4After : Sound :=
  { player := { duration := 1 * 10 ^ 9, timeMs := some 1000,
                state := .Paused, canPause := true, playFails := false,
                lastPauseRequest := some (0, false) },
    spec := c4Sound.spec,
    activated := true }

/-! ## Helper lemmas -/

/-- `rewind_unless_already_active` never changes the `activated` flag. -/
theorem Sound.rewind_activated (s : Sound) :
    s.rewind_unless_already_active.activated = s.activated := by
  unfold Sound.rewind_unless_already_active
  split <;> rfl

/-- `rewind_unless_already_active` is the identity on an activated
sound: its guard reads the `activated` flag. -/
theorem Sound.rewind_of_activated (s : Sound) (h : s.activated = true) :
    s.rewind_unless_already_active = s := by
  simp [Sound.rewind_unless_already_active, h]

/-- Unfolded form of a cold `activate`: the rewind step is dead code
(the flag was just set), so the mutated state goes straight to `play`,
then to the cold branch of `seek_on_reenter`. -/
theorem Sound.activate_cold_eq (s : Sound) (now : Nat)
    (h : s.activated = false) :
    s.activate now =
      match s.player.play now with
      | .error e => some (.error e, { s with activated := true })
      | .ok p =>
          (Sound.seek_on_reenter { s with player := p, activated := true }
              false).map fun s => (Except.ok (), s) := by
  simp only [Sound.activate]
  rw [Sound.rewind_of_activated _ rfl, h]

/-- A cold `activate` whose inner play call succeeds proceeds to the
cold branch of `seek_on_reenter` on the played state. -/
theorem Sound.activate_cold_play_ok (s : Sound) (now : Nat) (p : Player)
    (h : s.activated = false) (hp : s.player.play now = .ok p) :
    s.activate now =
      (Sound.seek_on_reenter { s with player := p, activated := true }
          false).map fun s => (Except.ok (), s) := by
  rw [Sound.activate_cold_eq s now h, hp]

/-- The cold looping-`Backoff` branch of `seek_on_reenter`. -/
theorem Sound.seek_cold_looping_backoff (s : Sound) (b : Nat)
    (h_loop : s.spec.looping = true)
    (h_b : s.spec.reenter_behavior = .Backoff b) :
    s.seek_on_reenter false =
      ((duration_mod b s.player.duration).map fun backoff =>
          if backoff > s.player.played then
            s.player.duration - (backoff - s.player.played)
          else s.player.played - backoff).map
        fun t => { s with player := s.player.seek t } := by
  simp only [Sound.seek_on_reenter, h_loop, h_b, Bool.false_eq_true,
    if_false]

/-- The cold non-looping-`Backoff` branch of `seek_on_reenter`. -/
theorem Sound.seek_cold_nonlooping_backoff (s : Sound) (b : Nat)
    (h_loop : s.spec.looping = false)
    (h_b : s.spec.reenter_behavior = .Backoff b) :
    s.seek_on_reenter false =
      some { s with player :=
                      s.player.seek
                        (max s.spec.start_offset
                          (if b ≤ s.player.played then s.player.played - b
                           else s.spec.start_offset)) } := by
  simp only [Sound.seek_on_reenter, h_loop, h_b, Bool.false_eq_true,
    if_false, Option.map_some, Option.map_some']

/-- The cold `Seek` branch of `seek_on_reenter`: the explicit position
wins regardless of the looping flag. -/
theorem Sound.seek_cold_seek_policy (s : Sound) (t : Nat)
    (h_b : s.spec.reenter_behavior = .Seek t) :
    s.seek_on_reenter false =
      some { s with player := s.player.seek t } := by
  cases h_loop : s.spec.looping <;>
    simp only [Sound.seek_on_reenter, h_loop, h_b, Bool.false_eq_true,
      if_false, Option.map_some, Option.map_some']

/-- `duration_mod` below the 64-bit truncation threshold is the plain
remainder, defined whenever the divisor is nonzero. -/
theorem duration_mod_small (b d : Nat) (hb : b < 2 ^ 64) (hd : d < 2 ^ 64)
    (hpos : 0 < d) : duration_mod b d = some (b % d) := by
  unfold duration_mod
  rw [Nat.mod_eq_of_lt hb, Nat.mod_eq_of_lt hd]
  simp [Nat.pos_iff_ne_zero.mp hpos]

/-- A non-panicking `seek_on_reenter` never changes the `activated`
flag. -/
theorem Sound.seek_on_reenter_activated (s s' : Sound) (w : Bool)
    (h : s.seek_on_reenter w = some s') : s'.activated = s.activated := by
  unfold Sound.seek_on_reenter at h
  split at h
  · cases h; rfl
  · rcases Option.map_eq_some'.mp h with ⟨t, _, ht⟩
    rw [← ht]

/-- A successful `Player::play` touches at most `last_pause_request`:
every other register is unchanged. -/
theorem Player.play_ok_fields (p p' : Player) (now : Nat)
    (h : p.play now = .ok p') :
    p'.duration = p.duration ∧ p'.timeMs = p.timeMs ∧ p'.state = p.state ∧
      p'.canPause = p.canPause ∧ p'.playFails = p.playFails := by
  unfold Player.play at h
  split at h
  · cases h; exact ⟨rfl, rfl, rfl, rfl, rfl⟩
  · split at h
    · cases h
    · cases h; exact ⟨rfl, rfl, rfl, rfl, rfl⟩

/-- A successful `Player::play` does not move the playback clock. -/
theorem Player.play_ok_played (p p' : Player) (now : Nat)
    (h : p.play now = .ok p') : p'.played = p.played := by
  unfold Player.played
  rw [(Player.play_ok_fields p p' now h).2.1]

/-! ## Claim theorems -/

/-- Claim C5: `Player::playing` returns the negation of the last
requested paused state while less than the 50 ms dirty window has
elapsed since the request; after the window, or when no request was
recorded, it returns exactly the driver-state classification, which is
true precisely for `Opening`, `Buffering` and `Playing`. -/
theorem player_playing_latency_compensation (p : Player) (now at_ : Nat)
    (paused : Bool) :
    (p.lastPauseRequest = some (at_, paused) →
        now - at_ < PAUSE_DIRTY_TIMEOUT → p.playing now = !paused)
    ∧ (p.lastPauseRequest = some (at_, paused) →
        PAUSE_DIRTY_TIMEOUT ≤ now - at_ → p.playing now = vlcPlaying p.state)
    ∧ (p.lastPauseRequest = none → p.playing now = vlcPlaying p.state)
    ∧ (vlcPlaying p.state = true ↔
        p.state = .Opening ∨ p.state = .Buffering ∨ p.state = .Playing) := by
  refine ⟨?_, ?_, ?_, ?_⟩
  · intro h hwin
    simp [Player.playing, h, hwin]
  · intro h hwin
    simp [Player.playing, h, Nat.not_lt.mpr hwin]
  · intro h
    simp [Player.playing, h]
  · cases p.state <;> simp [vlcPlaying]

/-- Witness for C5: a player paused 10 ns ago reports not playing even
though its driver state is still `Playing`. -/
theorem player_playing_latency_compensation_witness :
    c5Player.playing 10 = !true :=
  (player_playing_latency_compensation c5Player 10 0 true).1 rfl (by decide)

/-- Claim C6: when `Sound::cancel` succeeds, `Sound::done` queried at the
same instant already reports true, even though the driver state may not
have settled yet (the dirty window makes `playing()` report the
requested pause at once). -/
theorem sound_cancel_then_done (s : Sound) (now : Nat)
    (h : (s.cancel now).1 = .ok ()) :
    Sound.done (s.cancel now).2 now = true := by
  unfold Sound.cancel at h ⊢
  by_cases hp : s.player.playing now
  · by_cases hcp : s.player.canPause
    · simp only [Player.pause, hp, hcp, Bool.not_true, Bool.false_eq_true,
        if_false, if_true]
      simp [Sound.done, Player.playing, PAUSE_DIRTY_TIMEOUT, NS_PER_MS]
    · simp [Player.pause, hp, hcp] at h
  · simp only [Player.pause, hp, Bool.not_false, if_true]
    simp [Sound.done, hp]

/-- Witness for C6: cancelling a concrete playing sound succeeds and
`done` immediately reports true. -/
theorem sound_cancel_then_done_witness :
    Sound.done (c6Sound.cancel 0).2 0 = true :=
  sound_cancel_then_done c6Sound 0 rfl

/-- Claim C8: a warm re-entry (`activate` while already activated)
leaves the playback position untouched, whether the inner play call
succeeds or fails: neither the driver clock nor the reported elapsed
position changes. -/
theorem sound_warm_reentry_keeps_position (s : Sound) (now : Nat)
    (r : Except Unit Unit) (s' : Sound)
    (h_act : s.activated = true)
    (h : s.activate now = some (r, s')) :
    s'.player.timeMs = s.player.timeMs ∧ s'.player.played = s.player.played := by
  unfold Sound.activate at h
  rw [h_act] at h
  simp only [Sound.rewind_unless_already_active, Bool.not_true,
    Bool.false_eq_true, if_false] at h
  cases hp : Player.play s.player now with
  | error e =>
      rw [hp] at h
      cases h
      exact ⟨rfl, rfl⟩
  | ok p =>
      rw [hp] at h
      simp only [Sound.seek_on_reenter, if_true, Option.map_some] at h
      cases h
      exact ⟨(Player.play_ok_fields s.player p now hp).2.1,
        Player.play_ok_played s.player p now hp⟩

/-- Witness for C8: warmly re-activating a concrete paused sound keeps
the driver clock and elapsed position. -/
theorem sound_warm_reentry_keeps_position_witness :
    c8Sound.player.timeMs = c8Sound.player.timeMs
    ∧ c8Sound.player.played = c8Sound.player.played :=
  sound_warm_reentry_keeps_position c8Sound 0 (.ok ()) c8Sound rfl rfl

/-- Counterexample to claim C7: when the driver's play call fails,
`activate` returns an error but the sound is left with
`activated = true` (the flag is set before the fallible play call and is
not rolled back), so the act is not left inactive. -/
theorem c7_activation_error_counterexample :
    Sound.activate c7Sound 0 = some (.error (), { c7Sound with activated := true })
    ∧ ({ c7Sound with activated := true } : Sound).activated ≠ false :=
  ⟨rfl, by decide⟩

/-- Claim C7 (amended): whenever `activate` returns — with an error or
successfully — the sound's `activated` flag is true afterwards. -/
theorem sound_activate_leaves_activated (s : Sound) (now : Nat)
    (r : Except Unit Unit) (s' : Sound)
    (h : s.activate now = some (r, s')) : s'.activated = true := by
  simp only [Sound.activate] at h
  cases hp : Player.play (Sound.rewind_unless_already_active
      { s with activated := true }).player now with
  | error e =>
      rw [hp] at h
      cases h
      rw [Sound.rewind_activated]
  | ok p =>
      rw [hp] at h
      rcases Option.map_eq_some'.mp h with ⟨s₂, hs₂, heq⟩
      cases heq
      rw [Sound.seek_on_reenter_activated _ _ _ hs₂]
      show (Sound.rewind_unless_already_active { s with activated := true }).activated = true
      rw [Sound.rewind_activated]

/-- Witness for the amended C7: activating `c7Sound` fails yet leaves
the flag set. -/
theorem sound_activate_leaves_activated_witness :
    ({ c7Sound with activated := true } : Sound).activated = true :=
  sound_activate_leaves_activated c7Sound 0 (.error ())
    { c7Sound with activated := true } rfl

/-- Claim C1 is violated by the code: `activate` sets `activated := true`
before calling `rewind_unless_already_active`, whose `!activated` guard
is therefore always false, so the seek to `start_offset` never runs.  On
the cold sound `c1Sound` (position 10 s, start offset 7 s) the rewind
step is the identity and the final position is 10 s, not the start
offset. -/
theorem c1_rewind_dead_code :
    Sound.rewind_unless_already_active { c1Sound with activated := true }
        = { c1Sound with activated := true }
    ∧ Sound.activate c1Sound 0 = some (.ok (), c1After)
    ∧ c1After.player.played ≠ c1Sound.spec.start_offset :=
  ⟨rfl, rfl, by decide⟩

/-- Claim C10: on a cold activation of a looping sound with a `Backoff`
policy whose player reports a zero total duration, the backoff reduction
`duration_mod` takes a remainder by zero and `activate` panics (modelled
by `none`) instead of returning an error value. -/
theorem sound_zero_duration_backoff_panics (s : Sound) (now b : Nat)
    (p : Player)
    (h_cold : s.activated = false)
    (h_loop : s.spec.looping = true)
    (h_b : s.spec.reenter_behavior = .Backoff b)
    (h_dur : s.player.duration = 0)
    (h_play : s.player.play now = .ok p) :
    s.activate now = none := by
  rw [Sound.activate_cold_play_ok s now p h_cold h_play,
    Sound.seek_cold_looping_backoff { s with player := p, activated := true }
      b h_loop h_b]
  have hd : p.duration = 0 :=
    (Player.play_ok_fields s.player p now h_play).1.trans h_dur
  show (((duration_mod b p.duration).map _).map _).map _ = none
  rw [hd]
  rfl

/-- Witness for C10: activating the zero-duration looping backoff sound
`c10Sound` panics. -/
theorem sound_zero_duration_backoff_panics_witness :
    Sound.activate c10Sound 0 = none :=
  sound_zero_duration_backoff_panics c10Sound 0 (5 * 10 ^ 9)
    { duration := 0, timeMs := some 0, state := .Paused,
      canPause := true, playFails := false,
      lastPauseRequest := some (0, false) }
    rfl rfl rfl rfl rfl

/-- Claim C2: a cold activation of a looping sound with `Backoff(b)`
seeks the player to `dur - (b' - played)` when `b' > played` and to
`played - b'` otherwise, where `b' = b mod dur` (under the 64-bit
truncation threshold of `duration_mod`, so the remainder is the plain
`b % dur`, and the duration must be nonzero for the remainder to be
defined). -/
theorem sound_cold_looping_backoff_seek (s : Sound) (now b : Nat)
    (p : Player)
    (h_cold : s.activated = false)
    (h_loop : s.spec.looping = true)
    (h_b : s.spec.reenter_behavior = .Backoff b)
    (h_pos : 0 < s.player.duration)
    (h_d64 : s.player.duration < 2 ^ 64)
    (h_b64 : b < 2 ^ 64)
    (h_play : s.player.play now = .ok p) :
    s.activate now = some (.ok (),
      { player :=
          p.seek
            (if b % s.player.duration > s.player.played then
              s.player.duration - (b % s.player.duration - s.player.played)
             else s.player.played - b % s.player.duration),
        spec := s.spec, activated := true }) := by
  have hdur : p.duration = s.player.duration :=
    (Player.play_ok_fields s.player p now h_play).1
  have hplayed : p.played = s.player.played :=
    Player.play_ok_played s.player p now h_play
  rw [Sound.activate_cold_play_ok s now p h_cold h_play,
    Sound.seek_cold_looping_backoff { s with player := p, activated := true }
      b h_loop h_b]
  dsimp only
  rw [hdur, hplayed, duration_mod_small b s.player.duration h_b64 h_d64 h_pos]
  rfl

/-- Witness for C2, the spec's example: duration 100 s, played 5 s,
backoff 12 s, so the cold activation seeks to 93 s. -/
theorem sound_cold_looping_backoff_seek_witness :
    Sound.activate c2Sound 0 = some (.ok (),
      { player := c2PlayerAfter.seek (93 * 10 ^ 9),
        spec := c2Sound.spec, activated := true }) :=
  sound_cold_looping_backoff_seek c2Sound 0 (12 * 10 ^ 9) c2PlayerAfter
    rfl rfl rfl (by decide) (by decide) (by decide) rfl

/-- Claim C3: a cold activation of a non-looping sound with `Backoff(b)`
seeks the player to `max(start_offset, played - b)`, the subtraction
truncated at zero so that `played < b` floors at the start offset. -/
theorem sound_cold_nonlooping_backoff_seek (s : Sound) (now b : Nat)
    (p : Player)
    (h_cold : s.activated = false)
    (h_loop : s.spec.looping = false)
    (h_b : s.spec.reenter_behavior = .Backoff b)
    (h_play : s.player.play now = .ok p) :
    s.activate now = some (.ok (),
      { player := p.seek (max s.spec.start_offset (s.player.played - b)),
        spec := s.spec, activated := true }) := by
  have hplayed : p.played = s.player.played :=
    Player.play_ok_played s.player p now h_play
  rw [Sound.activate_cold_play_ok s now p h_cold h_play,
    Sound.seek_cold_nonlooping_backoff
      { s with player := p, activated := true } b h_loop h_b]
  dsimp only
  rw [hplayed]
  have harg : max s.spec.start_offset
      (if b ≤ s.player.played then s.player.played - b
       else s.spec.start_offset)
      = max s.spec.start_offset (s.player.played - b) := by
    by_cases hle : b ≤ s.player.played
    · rw [if_pos hle]
    · have h0 : s.player.played - b = 0 := by omega
      rw [if_neg hle, h0, Nat.max_self, Nat.max_zero]
  rw [harg]
  rfl

/-- Witness for C3, the spec's example: start offset 0, played 10 s,
backoff 3 s, so the cold activation seeks to 7 s. -/
theorem sound_cold_nonlooping_backoff_seek_witness :
    Sound.activate c3Sound 0 = some (.ok (),
      { player := c3PlayerAfter.seek (7 * 10 ^ 9),
        spec := c3Sound.spec, activated := true }) :=
  sound_cold_nonlooping_backoff_seek c3Sound 0 (3 * 10 ^ 9) c3PlayerAfter
    rfl rfl rfl rfl

/-- Counterexample to claim C4: with `Seek(2 s)` on a 1 s medium, the
cold activation leaves the player at 1 s (the seek target is clamped to
the duration by `Player::seek`), not at the requested 2 s. -/
theorem c4_seek_policy_counterexample :
    Sound.activate c4Sound 0 = some (.ok (), c4After)
    ∧ c4After.player.played ≠ 2 * 10 ^ 9 :=
  ⟨rfl, by decide⟩

/-- Claim C4 (amended): a cold activation under `Seek(to)` applies
`Player::seek` with argument `to` unconditionally — regardless of the
looping flag and independent of the prior played position — and the
resulting position is `to` clamped to the media duration and truncated
to the driver's millisecond granularity. -/
theorem sound_cold_seek_policy (s : Sound) (now t : Nat) (p : Player)
    (h_cold : s.activated = false)
    (h_b : s.spec.reenter_behavior = .Seek t)
    (h_play : s.player.play now = .ok p) :
    s.activate now = some (.ok (),
      { player := p.seek t, spec := s.spec, activated := true })
    ∧ (p.seek t).played = min p.duration t / NS_PER_MS * NS_PER_MS := by
  constructor
  · rw [Sound.activate_cold_play_ok s now p h_cold h_play,
      Sound.seek_cold_seek_policy
        { s with player := p, activated := true } t h_b]
    rfl
  · simp only [Player.seek, Player.played, Option.getD_some,
      Int.toNat_natCast]

/-- Witness for the amended C4: on `c4Sound` the seek argument is the
configured 2 s and the resulting position is the clamped, truncated
1 s. -/
theorem sound_cold_seek_policy_witness :
    Sound.activate c4Sound 0 = some (.ok (),
      { player := c4PlayerAfter.seek (2 * 10 ^ 9),
        spec := c4Sound.spec, activated := true })
    ∧ (c4PlayerAfter.seek (2 * 10 ^ 9)).played
        = min c4PlayerAfter.duration (2 * 10 ^ 9) / NS_PER_MS * NS_PER_MS :=
  sound_cold_seek_policy c4Sound 0 (2 * 10 ^ 9) c4PlayerAfter rfl rfl rfl

/-- Claim C9: decoding a dial string yields exactly the ordered sequence
of inputs obtained by mapping `'0'..'9'` to the corresponding digit,
`'h'` to hang up and `'p'` to pick up, silently dropping every other
character — the source's `filter_map` (with its checked digit
constructor) coincides with the spec's per-character mapping. -/
theorem dial_decode_matches_spec (seq : List Char) :
    compileDial seq = seq.filterMap specDialChar := by
  have h : ∀ c, dialChar c = specDialChar c := by
    intro c
    unfold dialChar specDialChar Input.digitChecked
    by_cases hd : '0' ≤ c ∧ c ≤ '9'
    · have h48 : 48 ≤ c.toNat := hd.1
      have h57 : c.toNat ≤ 57 := hd.2
      have e0 : ('0'.toNat : Int) = 48 := rfl
      have e0n : '0'.toNat = 48 := rfl
      rw [if_pos hd, if_pos hd,
        if_pos (show 0 ≤ (c.toNat : Int) - ('0'.toNat : Int)
            ∧ (c.toNat : Int) - ('0'.toNat : Int) ≤ 9 by
          rw [e0]; constructor <;> omega)]
      have harg : ((c.toNat : Int) - ('0'.toNat : Int)).toNat
          = c.toNat - '0'.toNat := by
        rw [e0, e0n]; omega
      rw [harg]
    · rw [if_neg hd, if_neg hd]
  unfold compileDial
  rw [show dialChar = specDialChar from funext h]

end Fern
